import Mathlib

/-!
# Verification of the osmosis-ai TypeScript SDK logging core

Shallow embedding of `src/consts.ts`, `src/osmosis-cloud.ts` and the
interception wrappers of `src/index.ts`, together with theorems settling the
specification claims about them.

Modelling conventions:
* JavaScript side effects (console output, outbound HTTP POSTs) are recorded in
  an explicit `Effect` list, in emission order; asynchronous completions (the
  `then`/`catch` handlers of a `fetch`) are appended where the single-threaded
  event loop would run them.
* `Date.now()` and the successive `Math.random()` draws are supplied by an
  `Oracle`; a `Math.random()` value `r ∈ [0,1)` is represented by its numerator
  `k` with `r = k / 2^53` (the IEEE-754 doubles produced by `Math.random`).
* `JSON.stringify` (which may throw) and the sha-256 fallback digest are
  abstract functions supplied in a `SendEnv`.
* Fields of the configuration object distinguish a key that is absent from one
  present with value `undefined` (`JsField`), matching JavaScript spread and
  truthiness semantics.
-/

/-- Either `"console"`, `"cloud"` or `"both"` (`OsmosisAIOptions.logDestination`). -/
inductive LogDestination where
  | console
  | cloud
  | both
deriving DecidableEq, Repr

/-- A field of a JavaScript object: absent, present with value `undefined`,
or present with a value. -/
inductive JsField (α : Type) where
  | absent
  | undef
  | val (a : α)
deriving DecidableEq, Repr

namespace JsField

/-- JavaScript object-spread semantics for one key: `{...old, ...new}` keeps the
old binding only when the key is absent from `new`. -/
def spread {α : Type} (old new : JsField α) : JsField α :=
  match new with
  | .absent => old
  | x => x

/-- Truthiness of a possibly-missing boolean field (`undefined` is falsy). -/
def boolTruthy : JsField Bool → Bool
  | .val b => b
  | _ => false

/-- Truthiness of a possibly-missing object field (objects are always truthy). -/
def objTruthy {α : Type} : JsField α → Bool
  | .val _ => true
  | _ => false

/-- Truthiness of a possibly-missing string field (`""` is falsy). -/
def strTruthy : JsField String → Bool
  | .val s => !s.isEmpty
  | _ => false

/-- The value of a string field, defaulting to `""`. -/
def strVal : JsField String → String
  | .val s => s
  | _ => ""

end JsField

/-- The `enabledAPIs` sub-object of `OsmosisAIOptions` (all keys optional). -/
structure EnabledAPIsPartial where
  openai : JsField Bool := .absent
  anthropic : JsField Bool := .absent
  langchainOpenai : JsField Bool := .absent
  langchainAnthropic : JsField Bool := .absent
deriving DecidableEq, Repr

/-- Names of the four supported client families. -/
inductive APIName where
  | openai
  | anthropic
  | langchainOpenai
  | langchainAnthropic
deriving DecidableEq, Repr

/-- Read one per-library flag field of an `enabledAPIs` object. -/
def EnabledAPIsPartial.get (p : EnabledAPIsPartial) : APIName → JsField Bool
  | .openai => p.openai
  | .anthropic => p.anthropic
  | .langchainOpenai => p.langchainOpenai
  | .langchainAnthropic => p.langchainAnthropic

/-- Key-by-key JavaScript spread `{...old, ...new}` of two `enabledAPIs` objects. -/
def spreadAPIs (old new : EnabledAPIsPartial) : EnabledAPIsPartial where
  openai := old.openai.spread new.openai
  anthropic := old.anthropic.spread new.anthropic
  langchainOpenai := old.langchainOpenai.spread new.langchainOpenai
  langchainAnthropic := old.langchainAnthropic.spread new.langchainAnthropic

/-- The shape shared by the live configuration `osmosisConfig` and the partial
`OsmosisAIOptions` argument of `configure` (`src/index.ts`, `OsmosisAIOptions`). -/
structure OsmosisConfig where
  enabled : JsField Bool := .absent
  logDestination : JsField LogDestination := .absent
  logFilePath : JsField String := .absent
  cloudApiKey : JsField String := .absent
  enabledAPIs : JsField EnabledAPIsPartial := .absent
deriving DecidableEq, Repr

/-- `defaultConfig` from `src/consts.ts`. -/
def defaultConfig : OsmosisConfig where
  enabled := .val true
  logDestination := .val .cloud
  logFilePath := .absent
  cloudApiKey := .absent
  enabledAPIs := .val
    { openai := .val true
      anthropic := .val true
      langchainOpenai := .val true
      langchainAnthropic := .val true }

/-- `osmosisConfig.logDestination === "console" || osmosisConfig.logDestination === "both"`. -/
def destConsoleOrBoth (cfg : OsmosisConfig) : Bool :=
  match cfg.logDestination with
  | .val .console | .val .both => true
  | _ => false

/-- `osmosisConfig.logDestination === "cloud" || osmosisConfig.logDestination === "both"`. -/
def destCloudOrBoth (cfg : OsmosisConfig) : Bool :=
  match cfg.logDestination with
  | .val .cloud | .val .both => true
  | _ => false

/-- The `enabledAPIs` object seen through optional chaining
(`osmosisConfig.enabledAPIs?.x`): a missing or `undefined` object reads as an
object with every key absent. -/
def apisOf : JsField EnabledAPIsPartial → EnabledAPIsPartial
  | .val p => p
  | _ => {}

/-- `OSMOSIS_API_URL` from `src/consts.ts`. -/
def OSMOSIS_API_URL : String :=
  "https://ftgrv77m9f.execute-api.us-west-2.amazonaws.com/prod"

/-- A chat-completion request body as passed to `chat.completions.create` /
used as the `body` of a request: an opaque payload of caller fields plus the
`stream` flag the wrappers read and re-spread. -/
structure CreateParams where
  payload : String
  stream : Bool := false
deriving DecidableEq, Repr

/-- The query object handed to `sendToOsmosis` (`LogQuery` of the spec): the
union of the object literals built at the call sites in `src/index.ts`. -/
structure Query where
  api : String
  version : Option String := none
  path : String
  method : String
  body : Option CreateParams := none
  queryParams : Option (List (String × String)) := none
  timestamp : String
  requestId : Option String := none
deriving DecidableEq, Repr

/-- The response objects built at the `sendToOsmosis` call sites:
`{}`, `{data, timestamp}`, `{error, timestamp}`, and the two streaming status
payloads (whose constant `message`/`streaming` fields are left implicit). -/
inductive LogResponse where
  | empty
  | dataPayload (payload : String) (timestamp : String)
  | errorMsg (message : String) (timestamp : String)
  | streamStarted (timestamp : String)
  | streamCompleted (content : String) (contentLength : Nat)
      (startedAt completedAt timestamp : String)
deriving DecidableEq, Repr

/-- The wire record (`data` in `sendToOsmosis`). -/
structure Envelope where
  owner : String
  date : Nat
  query : Query
  response : LogResponse
  status : Nat
deriving DecidableEq, Repr

/-- Observable side effects, in emission order. A `fetchPost` records the
structured envelope alongside the serialized body actually posted. -/
inductive Effect where
  | consoleLog (line : String)
  | consoleWarn (line : String)
  | fetchPost (url : String) (apiKey : String) (env : Envelope) (body : String)
deriving DecidableEq, Repr

/-- Outcome of one background `fetch` POST: an HTTP status, or a rejection of
the network layer. -/
inductive FetchOutcome where
  | status (n : Nat)
  | netError (msg : String)
deriving DecidableEq, Repr

/-- Environment oracle: the current `Date.now()` value, the pending
`Math.random()` draws (numerators over `2^53`), and the pending fetch
outcomes. -/
structure Oracle where
  nowMs : Nat
  rands : List Nat
  fetches : List FetchOutcome
deriving DecidableEq, Repr

/-- Pop one `Math.random()` draw. -/
def Oracle.consumeRand (o : Oracle) : Oracle :=
  { o with rands := o.rands.tail }

/-- Pop one fetch outcome. -/
def Oracle.consumeFetch (o : Oracle) : Oracle :=
  { o with fetches := o.fetches.tail }

/-- Abstract external functions used by the cloud module: the truncated sha-256
fallback digest (`createHash("sha256")...substring(0,8)`) and `JSON.stringify`,
which may throw (`Except.error` is a thrown serialization exception). -/
structure SendEnv where
  sha256hex8 : String → String
  stringify : Envelope → Except String String

/-- Module state of `src/osmosis-cloud.ts`: the four module-level variables. -/
structure CloudState where
  enabled : Bool
  osmosisApiKey : Option String
  inited : Bool
  xxhashInstance : Option (String → String)

/-- JavaScript falsiness of the `string | null` key: `null` or `""`. -/
def keyFalsy : Option String → Bool
  | none => true
  | some s => s.isEmpty

/-- The stored key, defaulting to `""` (only read when truthy). -/
def keyVal : Option String → String
  | none => ""
  | some s => s

namespace OsmosisCloud

/-- The character for one base-36 digit, as produced by
`Number.prototype.toString(36)`: `0-9` then lowercase `a-z`. -/
def base36Digit (n : Nat) : Char :=
  if n < 10 then Char.ofNat (48 + n) else Char.ofNat (87 + n)

/-- `2^53`, the denominator of the dyadic rationals returned by `Math.random()`. -/
def pow53 : Nat := 2 ^ 53

/-- Base-36 fractional digits of `k / 2^53`, by repeated multiplication; the
expansion of a dyadic rational terminates within 27 digits (`2^53 ∣ 36^27`),
so fuel 27 yields the exact expansion for every `Math.random()` value. -/
def frac36Digits : Nat → Nat → List Char
  | 0, _ => []
  | fuel + 1, k =>
    if k = 0 then []
    else base36Digit (k * 36 / pow53) :: frac36Digits fuel (k * 36 % pow53)

/-- `(k / 2^53).toString(36)`: `"0"` for zero, otherwise `"0."` followed by the
fractional digits. -/
def jsRandomToString36 (k : Nat) : String :=
  if k = 0 then "0" else String.mk ('0' :: '.' :: frac36Digits 27 k)

/-- `Math.random().toString(36).substring(2, 7)`: drop the `"0."` and keep at
most five digits. -/
def randomSuffix (k : Nat) : String :=
  String.mk (((jsRandomToString36 k).data.drop 2).take 5)

/-- The generated correlation id
`` `req_${Date.now()}_${Math.random().toString(36).substring(2, 7)}` ``. -/
def reqId (nowMs k : Nat) : String :=
  "req_" ++ Nat.repr nowMs ++ "_" ++ randomSuffix k

/-- `getOwnerHash` from `src/osmosis-cloud.ts`: the xxhash instance once
initialized, else the truncated sha-256 digest. -/
def getOwnerHash (env : SendEnv) (st : CloudState) (apiKey : String) : String :=
  match st.xxhashInstance with
  | none => env.sha256hex8 apiKey
  | some h => h apiKey

/-- Result of `sendToOsmosis`: the returned request id, the effects emitted
(including asynchronous completions), and the remaining oracle. -/
structure SendOut where
  id : String
  effects : List Effect
  oracle : Oracle
deriving Repr

/-- `JSON.stringify(data).replace(/\n/g, "")`. -/
def stripNewlines (s : String) : String :=
  String.mk (s.data.filter (fun c => c ≠ '\n'))

/-- `query.requestId || req_<now>_<suffix>`: the correlation id used for the
envelope (a falsy -- missing or empty -- caller id is regenerated), together
with the oracle after the `Math.random()` draw the generation consumes. -/
def resolvedIdO (o : Oracle) (query : Query) : String × Oracle :=
  match query.requestId with
  | some s =>
    if s.isEmpty then (reqId o.nowMs (o.rands.headD 0), o.consumeRand) else (s, o)
  | none => (reqId o.nowMs (o.rands.headD 0), o.consumeRand)

/-- The `data` payload of `sendToOsmosis`: owner hash, unix seconds, the query
with the resolved correlation id, the response, and the status. -/
def builtEnvelope (env : SendEnv) (st : CloudState) (o : Oracle)
    (query : Query) (response : LogResponse) (status : Nat) : Envelope where
  owner := getOwnerHash env st (keyVal st.osmosisApiKey)
  date := o.nowMs / 1000
  query := { query with requestId := some (resolvedIdO o query).1 }
  response := response
  status := status

/-- The warning contributed by the `then`/`catch` handlers of the background
`fetch`, according to its outcome. -/
def fetchFollowUp (o : Oracle) : List Effect :=
  match o.fetches.headD (.status 200) with
  | .status n =>
    if n ≠ 200 then
      [Effect.consoleWarn ("[OSMOSIS-AI] API returned status " ++ Nat.repr n ++ " for data")]
    else []
  | .netError m =>
    [Effect.consoleWarn ("[OSMOSIS-AI] Failed to send data to Osmosis API: " ++ m)]

/-- The `try`-block of `sendToOsmosis` after the id is resolved: build headers
and payload, serialize, and issue the POST. A thrown serialization exception
propagates as `Except.error`. -/
def trySend (env : SendEnv) (o : Oracle) (apiKey : String) (envl : Envelope) :
    Except String (List Effect × Oracle) :=
  match env.stringify envl with
  | .error e => .error e
  | .ok s =>
    .ok (Effect.fetchPost (OSMOSIS_API_URL ++ "/ingest") apiKey envl (stripNewlines s ++ "\n")
        :: fetchFollowUp o,
      o.consumeFetch)

/-- `sendToOsmosis(query, response, status)` from `src/osmosis-cloud.ts`. -/
def sendToOsmosis (env : SendEnv) (st : CloudState) (o : Oracle)
    (query : Query) (response : LogResponse) (status : Nat) : SendOut :=
  if !st.enabled || keyFalsy st.osmosisApiKey then ⟨"", [], o⟩
  else if !st.inited then
    ⟨"", [.consoleWarn "[OSMOSIS-AI] Cloud logging not initialized. Call init(apiKey) first."], o⟩
  else
    let apiKey := keyVal st.osmosisApiKey
    let requestId := (resolvedIdO o query).1
    let o1 := (resolvedIdO o query).2
    match trySend env o1 apiKey (builtEnvelope env st o query response status) with
    | .ok (effs, o2) => ⟨requestId, effs, o2⟩
    | .error e =>
      ⟨requestId,
        [.consoleWarn ("[OSMOSIS-AI] Failed to prepare data for Osmosis API: " ++ e)], o1⟩

/-- `init(apiKey)` from `src/osmosis-cloud.ts`: stores the key, warns and stops
on an empty key, otherwise completes the `await xxhash()` (supplied as `xxh`)
and marks the module initialized. -/
def init (st : CloudState) (xxh : String → String) (apiKey : String) :
    CloudState × List Effect :=
  let st1 := { st with osmosisApiKey := some apiKey }
  if apiKey.isEmpty then
    (st1, [.consoleWarn "[OSMOSIS-AI] No API key provided. Cloud logging disabled."])
  else
    ({ st1 with xxhashInstance := some xxh, inited := true },
      [.consoleLog "[OSMOSIS-AI] Cloud logging initialized"])

/-- `disableOsmosis`. -/
def disableOsmosis (st : CloudState) : CloudState := { st with enabled := false }

/-- `enableOsmosis`. -/
def enableOsmosis (st : CloudState) : CloudState := { st with enabled := true }

/-- `isCloudLoggingEnabled`. -/
def isCloudLoggingEnabled (st : CloudState) : Bool :=
  st.inited && st.enabled

end OsmosisCloud

namespace Index

open OsmosisCloud

/-- Result of one intercepted call: the value returned (or error re-raised) to
the caller, the effects emitted, and the remaining oracle. -/
structure WrapOut (α : Type) where
  result : α
  effects : List Effect
  oracle : Oracle
deriving Repr

/-- Resolved request options of the low-level `request(options)` methods. -/
structure ReqOptions where
  path : String
  method : String
  body : Option CreateParams := none
  queryParams : Option (List (String × String)) := none
deriving DecidableEq, Repr

/-- Render query parameters for the `Query:` console line (the
`JSON.stringify(query, null, 2)` text is opaque to every claim). -/
def queryParamsText (q : List (String × String)) : String :=
  String.intercalate ", " (q.map fun p => p.1 ++ "=" ++ p.2)

/-- The console record of a request: header line, `Path:`, `Method:`, optional
`Body:` and `Query:` lines. -/
def consoleRequestLines (apiName ts path method : String) (body : Option CreateParams)
    (queryParams : Option (List (String × String))) : List Effect :=
  [Effect.consoleLog ("[OSMOSIS-AI][" ++ ts ++ "] " ++ apiName ++ " Request:"),
   Effect.consoleLog ("  Path: " ++ path),
   Effect.consoleLog ("  Method: " ++ method)]
  ++ (match body with
      | some b => [Effect.consoleLog ("  Body: " ++ b.payload)]
      | none => [])
  ++ (match queryParams with
      | some q =>
        if q.length > 0 then [Effect.consoleLog ("  Query: " ++ queryParamsText q)]
        else []
      | none => [])

/-- `logRequest` from `src/index.ts`: console record when console logging is
active, plus a request-only envelope when cloud logging is active, all gated on
`osmosisConfig.enabled`. -/
def logRequest (cfg : OsmosisConfig) (cst : CloudState) (env : SendEnv) (o : Oracle)
    (apiName ts path method : String) (body : Option CreateParams)
    (queryParams : Option (List (String × String))) : List Effect × Oracle :=
  if !(cfg.enabled.boolTruthy) then ([], o)
  else
    let consoleEffs :=
      if destConsoleOrBoth cfg then
        consoleRequestLines apiName ts path method body queryParams
      else []
    if destCloudOrBoth cfg && isCloudLoggingEnabled cst then
      let s := sendToOsmosis env cst o
        { api := apiName, path := path, method := method, body := body
          queryParams := queryParams, timestamp := ts } .empty 200
      (consoleEffs ++ s.effects, s.oracle)
    else (consoleEffs, o)

/-- The patched `OpenAI.prototype.request` (v1 path, `src/index.ts` 211-280).
`options` is the outcome of resolving the possibly-asynchronous options,
`callResult` the outcome of the original method. On failure the combined
`Promise.all` handler is a no-op (`catch(() => {})`) and the original rejection
is returned to the caller. -/
def openAIRequestWrapper (cfg : OsmosisConfig) (cst : CloudState) (env : SendEnv)
    (o : Oracle) (options : Except String ReqOptions)
    (callResult : Except String String) (ts : String) :
    WrapOut (Except String String) :=
  let reqPhase : List Effect × Oracle :=
    match options with
    | .error m => ([Effect.consoleLog ("  [Error processing OpenAI request options]: " ++ m)], o)
    | .ok opts =>
      if destConsoleOrBoth cfg then
        logRequest cfg cst env o "OpenAI" ts opts.path opts.method opts.body opts.queryParams
      else ([], o)
  let respPhase : List Effect × Oracle :=
    if destCloudOrBoth cfg then
      match options, callResult with
      | .ok opts, .ok resp =>
        let s := sendToOsmosis env cst reqPhase.2
          { api := "OpenAI", version := some "v1", path := opts.path, method := opts.method
            body := opts.body, queryParams := opts.queryParams, timestamp := ts }
          (.dataPayload resp ts) 200
        (s.effects, s.oracle)
      | _, _ => ([], reqPhase.2)
    else ([], reqPhase.2)
  ⟨callResult, reqPhase.1 ++ respPhase.1, respPhase.2⟩

/-- The patched `Anthropic.prototype.request` (`src/index.ts` 554-619); the
request phase logs to console only when `logDestination === "console"`. -/
def anthropicRequestWrapper (cfg : OsmosisConfig) (cst : CloudState) (env : SendEnv)
    (o : Oracle) (options : Except String ReqOptions)
    (callResult : Except String String) (ts : String) :
    WrapOut (Except String String) :=
  let reqPhase : List Effect × Oracle :=
    match options with
    | .error m => ([Effect.consoleLog ("  [Error processing Anthropic request options]: " ++ m)], o)
    | .ok opts =>
      if cfg.logDestination = .val .console then
        logRequest cfg cst env o "Anthropic" ts opts.path opts.method opts.body opts.queryParams
      else ([], o)
  let respPhase : List Effect × Oracle :=
    if destCloudOrBoth cfg then
      match options, callResult with
      | .ok opts, .ok resp =>
        let s := sendToOsmosis env cst reqPhase.2
          { api := "Anthropic", path := opts.path, method := opts.method
            body := opts.body, queryParams := opts.queryParams, timestamp := ts }
          (.dataPayload resp ts) 200
        (s.effects, s.oracle)
      | _, _ => ([], reqPhase.2)
    else ([], reqPhase.2)
  ⟨callResult, reqPhase.1 ++ respPhase.1, respPhase.2⟩

/-- The wrapped `instance.chat.completions.create` installed by the patched
OpenAI constructor (`src/index.ts` 308-383), non-streaming entry point. -/
def openAIV2CreateWrapper (cfg : OsmosisConfig) (cst : CloudState) (env : SendEnv)
    (o : Oracle) (params : CreateParams) (callResult : Except String String)
    (ts : String) : WrapOut (Except String String) :=
  let reqPhase : List Effect × Oracle :=
    if destConsoleOrBoth cfg then
      logRequest cfg cst env o "OpenAI v2" ts "/v1/chat/completions" "POST" (some params) none
    else ([], o)
  match callResult with
  | .ok resp =>
    if !params.stream && destCloudOrBoth cfg then
      let s := sendToOsmosis env cst reqPhase.2
        { api := "OpenAI", version := some "v2", path := "/v1/chat/completions"
          method := "POST", body := some params, timestamp := ts }
        (.dataPayload resp ts) 200
      ⟨.ok resp, reqPhase.1 ++ s.effects, s.oracle⟩
    else ⟨.ok resp, reqPhase.1, reqPhase.2⟩
  | .error msg =>
    if destCloudOrBoth cfg then
      let s := sendToOsmosis env cst reqPhase.2
        { api := "OpenAI", version := some "v2", path := "/v1/chat/completions"
          method := "POST", body := some params, timestamp := ts }
        (.errorMsg msg ts) 500
      ⟨.error msg, reqPhase.1 ++ s.effects, s.oracle⟩
    else ⟨.error msg, reqPhase.1, reqPhase.2⟩

/-- The delta content of one streamed chunk:
`chunk.choices[0]?.delta?.content || ""`. -/
def chunkContent : Option String → String
  | some s => s
  | none => ""

/-- The text accumulated by the streaming wrapper over the yielded chunks. -/
def concatDeltas (chunks : List (Option String)) : String :=
  chunks.foldl (fun acc c => acc ++ chunkContent c) ""

/-- The wrapped `instance.chat.completions.create.stream`
(`src/index.ts` 389-514), with the consumer draining the stream to the end:
request-phase log, a `started` envelope whose returned id is reused as the
completion correlation id, pass-through of every chunk, and - when any content
was accumulated - a `completed` envelope from the `finally` block. -/
def streamWrapper (cfg : OsmosisConfig) (cst : CloudState) (env : SendEnv)
    (o : Oracle) (params : CreateParams) (chunks : List (Option String))
    (ts : String) : WrapOut (List (Option String)) :=
  let reqPhase : List Effect × Oracle :=
    if destConsoleOrBoth cfg then
      logRequest cfg cst env o "OpenAI v2 Stream" ts "/v1/chat/completions" "POST"
        (some { params with stream := true }) none
    else ([], o)
  if destCloudOrBoth cfg then
    let s := sendToOsmosis env cst reqPhase.2
      { api := "OpenAI", version := some "v2", path := "/v1/chat/completions"
        method := "POST", body := some { params with stream := true }, timestamp := ts }
      (.streamStarted ts) 200
    let initialLogId := s.id
    let startPhase : List Effect :=
      s.effects ++ [Effect.consoleLog
        ("[OSMOSIS-AI] Streaming request initiated with ID: " ++ initialLogId)]
    let streamContent := concatDeltas chunks
    let finalPhase : List Effect × Oracle :=
      if streamContent.length > 0 then
        let s2 := sendToOsmosis env cst s.oracle
          { api := "OpenAI", version := some "v2", path := "/v1/chat/completions"
            method := "POST", body := some { params with stream := true }
            timestamp := ts, requestId := some initialLogId }
          (.streamCompleted streamContent streamContent.length ts ts ts) 200
        (Effect.consoleLog
          ("[OSMOSIS-AI] Streaming completed, logging content ("
            ++ Nat.repr streamContent.length ++ " chars) with ID: " ++ initialLogId)
          :: s2.effects, s2.oracle)
      else ([], s.oracle)
    ⟨chunks, reqPhase.1 ++ startPhase ++ finalPhase.1, finalPhase.2⟩
  else
    ⟨chunks, reqPhase.1, reqPhase.2⟩

/-- The patched `ChatOpenAI.prototype._generate` (`src/index.ts` 639-734);
`reqData` is the request payload assembled from the model fields, `callResult`
the outcome of the original `_generate`. -/
def langchainOpenAIGenerateWrapper (cfg : OsmosisConfig) (cst : CloudState)
    (env : SendEnv) (o : Oracle) (reqData : String)
    (callResult : Except String String) (ts : String) :
    WrapOut (Except String String) :=
  let body : Option CreateParams := some { payload := reqData }
  let reqPhase : List Effect × Oracle :=
    if destConsoleOrBoth cfg then
      logRequest cfg cst env o "LangChain OpenAI" ts "/v1/chat/completions" "POST" body none
    else ([], o)
  if destCloudOrBoth cfg then
    match callResult with
    | .ok resp =>
      let s := sendToOsmosis env cst reqPhase.2
        { api := "LangChain OpenAI", path := "/v1/chat/completions", method := "POST"
          body := body, timestamp := ts } (.dataPayload resp ts) 200
      ⟨.ok resp, reqPhase.1 ++ s.effects, s.oracle⟩
    | .error msg =>
      let s := sendToOsmosis env cst reqPhase.2
        { api := "LangChain OpenAI", path := "/v1/chat/completions", method := "POST"
          body := body, timestamp := ts } (.errorMsg msg ts) 500
      ⟨.error msg, reqPhase.1 ++ s.effects, s.oracle⟩
  else ⟨callResult, reqPhase.1, reqPhase.2⟩

/-- The patched `ChatAnthropic.prototype._generate` (`src/index.ts` 754-849). -/
def langchainAnthropicGenerateWrapper (cfg : OsmosisConfig) (cst : CloudState)
    (env : SendEnv) (o : Oracle) (reqData : String)
    (callResult : Except String String) (ts : String) :
    WrapOut (Except String String) :=
  let body : Option CreateParams := some { payload := reqData }
  let reqPhase : List Effect × Oracle :=
    if destConsoleOrBoth cfg then
      logRequest cfg cst env o "LangChain Anthropic" ts "/v1/messages" "POST" body none
    else ([], o)
  if destCloudOrBoth cfg then
    match callResult with
    | .ok resp =>
      let s := sendToOsmosis env cst reqPhase.2
        { api := "LangChain Anthropic", path := "/v1/messages", method := "POST"
          body := body, timestamp := ts } (.dataPayload resp ts) 200
      ⟨.ok resp, reqPhase.1 ++ s.effects, s.oracle⟩
    | .error msg =>
      let s := sendToOsmosis env cst reqPhase.2
        { api := "LangChain Anthropic", path := "/v1/messages", method := "POST"
          body := body, timestamp := ts } (.errorMsg msg ts) 500
      ⟨.error msg, reqPhase.1 ++ s.effects, s.oracle⟩
  else ⟨callResult, reqPhase.1, reqPhase.2⟩

/-- `configure(options)` from `src/index.ts` 856-896: shallow spread of the
partial over the previous configuration, key-by-key re-merge of a present
`enabledAPIs` object, then the cloud-module side effects (an `init` when a
truthy `cloudApiKey` is given, enable/disable from `logDestination`). The
trailing masked `console.log` of the configuration and the asynchronous
`loadLibraries()` trigger are not modelled; no claim refers to them. -/
def configure (cfg : OsmosisConfig) (cst : CloudState) (xxh : String → String)
    (options : OsmosisConfig) : OsmosisConfig × CloudState × List Effect :=
  let previousConfig := cfg
  let cfg1 : OsmosisConfig :=
    { enabled := cfg.enabled.spread options.enabled
      logDestination := cfg.logDestination.spread options.logDestination
      logFilePath := cfg.logFilePath.spread options.logFilePath
      cloudApiKey := cfg.cloudApiKey.spread options.cloudApiKey
      enabledAPIs := cfg.enabledAPIs.spread options.enabledAPIs }
  let cfg2 :=
    if options.enabledAPIs.objTruthy then
      { cfg1 with
          enabledAPIs :=
            JsField.val (spreadAPIs (apisOf previousConfig.enabledAPIs)
              (apisOf options.enabledAPIs)) }
    else cfg1
  let afterInit : CloudState × List Effect :=
    if options.cloudApiKey.strTruthy then
      OsmosisCloud.init cst xxh options.cloudApiKey.strVal
    else (cst, [])
  let cst2 :=
    match options.logDestination with
    | .val .cloud | .val .both => OsmosisCloud.enableOsmosis afterInit.1
    | .val .console => OsmosisCloud.disableOsmosis afterInit.1
    | _ => afterInit.1
  (cfg2, cst2, afterInit.2)

end Index

/-- The envelopes carried by the `fetchPost` effects of a trace, in order. -/
def sentEnvelopes (effs : List Effect) : List Envelope :=
  effs.filterMap fun e =>
    match e with
    | .fetchPost _ _ envl _ => some envl
    | _ => none

/-- The envelopes of a trace that carry failure status 500. -/
def errorEnvelopes (effs : List Effect) : List Envelope :=
  (sentEnvelopes effs).filter fun e => e.status == 500

/-- Whether an effect writes to the console (either `log` or `warn`). -/
def Effect.isConsole : Effect → Bool
  | .consoleLog _ => true
  | .consoleWarn _ => true
  | _ => false

/-- Whether an effect performs network I/O. -/
def Effect.isFetch : Effect → Bool
  | .fetchPost _ _ _ _ => true
  | _ => false

/-- A lowercase alphanumeric character (`0-9` or `a-z`). -/
def isLowerAlnum (c : Char) : Bool :=
  (48 ≤ c.toNat && c.toNat ≤ 57) || (97 ≤ c.toNat && c.toNat ≤ 122)

namespace OsmosisCloud

lemma base36Digit_lowerAlnum : ∀ n, n < 36 → isLowerAlnum (base36Digit n) = true := by
  decide

lemma frac36Digits_lowerAlnum (fuel : Nat) :
    ∀ k, k < pow53 → (frac36Digits fuel k).all isLowerAlnum = true := by
  induction fuel with
  | zero => intro k _; rfl
  | succ f ih =>
    intro k hk
    unfold frac36Digits
    by_cases h : k = 0
    · simp [h]
    · have hpos : 0 < pow53 := by norm_num [pow53]
      have hd : k * 36 / pow53 < 36 := by
        apply Nat.div_lt_of_lt_mul
        have h53 : pow53 = 9007199254740992 := by norm_num [pow53]
        omega
      simp only [h, if_false, List.all_cons, Bool.and_eq_true]
      exact ⟨base36Digit_lowerAlnum _ hd, ih _ (Nat.mod_lt _ hpos)⟩

lemma randomSuffix_lowerAlnum (k : Nat) (hk : k < pow53) :
    (randomSuffix k).data.all isLowerAlnum = true := by
  unfold randomSuffix jsRandomToString36
  by_cases h : k = 0
  · simp [h]
  · simp only [h, if_false]
    have hall := frac36Digits_lowerAlnum 27 k hk
    rw [List.all_eq_true] at hall ⊢
    intro c hc
    have : c ∈ frac36Digits 27 k := List.take_subset _ _ hc
    exact hall c this

lemma randomSuffix_length_le (k : Nat) : (randomSuffix k).length ≤ 5 := by
  unfold randomSuffix
  show (((jsRandomToString36 k).data.drop 2).take 5).length ≤ 5
  rw [List.length_take]
  exact Nat.min_le_left _ _

lemma reqId_data (n k : Nat) :
    (reqId n k).data =
      "req_".data ++ ((Nat.repr n).data ++ ("_".data ++ (randomSuffix k).data)) := by
  simp [reqId, String.data_append]

lemma reqId_take4 (n k : Nat) : (reqId n k).data.take 4 = "req_".data := by
  rw [reqId_data]
  rfl

lemma reqId_ne_empty (n k : Nat) : reqId n k ≠ "" := by
  intro h
  have hd := congrArg String.data h
  rw [reqId_data] at hd
  simp at hd

lemma reqId_isEmpty (n k : Nat) : (reqId n k).isEmpty = false := by
  rw [Bool.eq_false_iff]
  intro h
  exact reqId_ne_empty n k ((String.isEmpty_iff _).mp h)

/-- Under an enabled, configured and initialized module, `sendToOsmosis`
returns the resolved correlation id and emits either the POST (with its
asynchronous follow-up warning) or the prepare-failure warning. -/
lemma sendToOsmosis_active (env : SendEnv) (st : CloudState) (o : Oracle)
    (q : Query) (r : LogResponse) (status : Nat) (key : String)
    (h1 : st.enabled = true) (h2 : st.osmosisApiKey = some key)
    (h3 : key.isEmpty = false) (h4 : st.inited = true) :
    sendToOsmosis env st o q r status =
      match trySend env (resolvedIdO o q).2 key (builtEnvelope env st o q r status) with
      | .ok (effs, o2) => ⟨(resolvedIdO o q).1, effs, o2⟩
      | .error e =>
        ⟨(resolvedIdO o q).1,
          [.consoleWarn ("[OSMOSIS-AI] Failed to prepare data for Osmosis API: " ++ e)],
          (resolvedIdO o q).2⟩ := by
  simp [sendToOsmosis, h1, h2, h3, h4, keyFalsy, keyVal]

end OsmosisCloud

section EnvelopeLemmas

lemma sentEnvelopes_append (a b : List Effect) :
    sentEnvelopes (a ++ b) = sentEnvelopes a ++ sentEnvelopes b := by
  simp [sentEnvelopes]

lemma errorEnvelopes_append (a b : List Effect) :
    errorEnvelopes (a ++ b) = errorEnvelopes a ++ errorEnvelopes b := by
  simp [errorEnvelopes, sentEnvelopes]

lemma sentEnvelopes_cons_fetchPost (u k : String) (e : Envelope) (b : String)
    (t : List Effect) :
    sentEnvelopes (Effect.fetchPost u k e b :: t) = e :: sentEnvelopes t := rfl

lemma sentEnvelopes_cons_log (s : String) (t : List Effect) :
    sentEnvelopes (Effect.consoleLog s :: t) = sentEnvelopes t := rfl

lemma sentEnvelopes_cons_warn (s : String) (t : List Effect) :
    sentEnvelopes (Effect.consoleWarn s :: t) = sentEnvelopes t := rfl

end EnvelopeLemmas

namespace OsmosisCloud

lemma resolvedIdO_fetches (o : Oracle) (q : Query) :
    (resolvedIdO o q).2.fetches = o.fetches := by
  unfold resolvedIdO Oracle.consumeRand
  rcases q.requestId with _ | s
  · rfl
  · dsimp only
    split <;> rfl

lemma resolvedIdO_none (o : Oracle) (q : Query) (hq : q.requestId = none) :
    (resolvedIdO o q).1 = reqId o.nowMs (o.rands.headD 0) := by
  unfold resolvedIdO
  rw [hq]

lemma resolvedIdO_some (o : Oracle) (q : Query) (s : String)
    (hq : q.requestId = some s) (hs : s.isEmpty = false) :
    resolvedIdO o q = (s, o) := by
  unfold resolvedIdO
  rw [hq]
  simp [hs]

lemma sentEnvelopes_fetchFollowUp (o : Oracle) : sentEnvelopes (fetchFollowUp o) = [] := by
  unfold fetchFollowUp
  cases h : o.fetches.headD (.status 200) with
  | status n =>
    by_cases hn : n ≠ 200 <;> simp [hn, sentEnvelopes]
  | netError m => simp [sentEnvelopes]

lemma filter_isFetch_fetchFollowUp (o : Oracle) :
    (fetchFollowUp o).filter Effect.isFetch = [] := by
  unfold fetchFollowUp
  cases h : o.fetches.headD (.status 200) with
  | status n =>
    by_cases hn : n ≠ 200 <;> simp [hn, Effect.isFetch]
  | netError m => simp [Effect.isFetch]

lemma sentEnvelopes_sendToOsmosis (env : SendEnv) (st : CloudState) (o : Oracle)
    (q : Query) (r : LogResponse) (status : Nat) :
    sentEnvelopes (sendToOsmosis env st o q r status).effects = [] ∨
    sentEnvelopes (sendToOsmosis env st o q r status).effects =
      [builtEnvelope env st o q r status] := by
  unfold sendToOsmosis
  split
  · left; rfl
  · split
    · left; simp [sentEnvelopes]
    · cases hs : env.stringify (builtEnvelope env st o q r status) with
      | error e => left; simp [trySend, hs, sentEnvelopes]
      | ok s =>
        right
        simp [trySend, hs, sentEnvelopes_cons_fetchPost, sentEnvelopes_fetchFollowUp]

lemma builtEnvelope_status (env : SendEnv) (st : CloudState) (o : Oracle)
    (q : Query) (r : LogResponse) (status : Nat) :
    (builtEnvelope env st o q r status).status = status := rfl

lemma builtEnvelope_response (env : SendEnv) (st : CloudState) (o : Oracle)
    (q : Query) (r : LogResponse) (status : Nat) :
    (builtEnvelope env st o q r status).response = r := rfl

lemma errorEnvelopes_send200 (env : SendEnv) (st : CloudState) (o : Oracle)
    (q : Query) (r : LogResponse) :
    errorEnvelopes (sendToOsmosis env st o q r 200).effects = [] := by
  rcases sentEnvelopes_sendToOsmosis env st o q r 200 with h | h <;>
    simp [errorEnvelopes, h, builtEnvelope_status]

/-- Under an enabled, configured and initialized module the returned id is the
resolved correlation id, whether or not serialization succeeds. -/
lemma sendToOsmosis_active_id (env : SendEnv) (st : CloudState) (o : Oracle)
    (q : Query) (r : LogResponse) (status : Nat) (key : String)
    (h1 : st.enabled = true) (h2 : st.osmosisApiKey = some key)
    (h3 : key.isEmpty = false) (h4 : st.inited = true) :
    (sendToOsmosis env st o q r status).id = (resolvedIdO o q).1 := by
  rw [sendToOsmosis_active env st o q r status key h1 h2 h3 h4]
  cases htry : trySend env (resolvedIdO o q).2 key (builtEnvelope env st o q r status) with
  | ok p => rfl
  | error e => rfl

/-- Under an enabled, configured and initialized module with a total
serializer, `sendToOsmosis` posts exactly the built envelope. -/
lemma sendToOsmosis_active_ok (env : SendEnv) (st : CloudState) (o : Oracle)
    (q : Query) (r : LogResponse) (status : Nat) (key : String)
    (sOk : Envelope → String)
    (henv : env.stringify = fun e => Except.ok (sOk e))
    (h1 : st.enabled = true) (h2 : st.osmosisApiKey = some key)
    (h3 : key.isEmpty = false) (h4 : st.inited = true) :
    sendToOsmosis env st o q r status =
      ⟨(resolvedIdO o q).1,
        Effect.fetchPost (OSMOSIS_API_URL ++ "/ingest") key
            (builtEnvelope env st o q r status)
            (stripNewlines (sOk (builtEnvelope env st o q r status)) ++ "\n")
          :: fetchFollowUp (resolvedIdO o q).2,
        (resolvedIdO o q).2.consumeFetch⟩ := by
  rw [sendToOsmosis_active env st o q r status key h1 h2 h3 h4]
  simp [trySend, henv]

end OsmosisCloud

namespace Index

open OsmosisCloud

lemma sentEnvelopes_consoleRequestLines (a ts p m : String) (b : Option CreateParams)
    (qp : Option (List (String × String))) :
    sentEnvelopes (consoleRequestLines a ts p m b qp) = [] := by
  unfold consoleRequestLines
  rcases b with _ | b <;> rcases qp with _ | q <;>
    simp [sentEnvelopes_append, sentEnvelopes, List.filterMap]

lemma errorEnvelopes_logRequest (cfg : OsmosisConfig) (cst : CloudState) (env : SendEnv)
    (o : Oracle) (a ts p m : String) (b : Option CreateParams)
    (qp : Option (List (String × String))) :
    errorEnvelopes (logRequest cfg cst env o a ts p m b qp).1 = [] := by
  unfold logRequest
  split
  · rfl
  · have hc : errorEnvelopes
        (if destConsoleOrBoth cfg then consoleRequestLines a ts p m b qp else []) = [] := by
      split
      · simp [errorEnvelopes, sentEnvelopes_consoleRequestLines]
      · rfl
    dsimp only
    split
    · rw [errorEnvelopes_append, hc, errorEnvelopes_send200]; rfl
    · exact hc

end Index

section Fixtures

/-- Concrete external functions: a constant digest and a total serializer. -/
def envOkFix : SendEnv := ⟨fun _ => "abcd1234", fun _ => Except.ok "S"⟩

/-- Concrete external functions whose serializer always throws. -/
def envErrFix : SendEnv := ⟨fun _ => "abcd1234", fun _ => Except.error "boom"⟩

/-- An enabled, configured, initialized cloud-module state. -/
def cstActiveFix : CloudState := ⟨true, some "key1", true, none⟩

/-- A concrete oracle; the first `Math.random()` draw is `2^52`, i.e. the
double `0.5`, whose base-36 representation is `"0.i"`. -/
def orHalfFix : Oracle := ⟨1234, [2 ^ 52, 7], []⟩

/-- A concrete query carrying no caller-supplied correlation id. -/
def qNoIdFix : Query := { api := "t", path := "/p", method := "GET", timestamp := "T" }

end Fixtures

open OsmosisCloud

/-- Claim C5: for every query, response and status, `sendToOsmosis` returns the
empty string with no effects at all (in particular no network I/O) when the
module-level enabled flag is false or no API key is configured; and when a key
is configured but initialization has not completed, it emits exactly the
not-initialized warning and returns the empty string without sending. -/
theorem C5_send_guards (env : SendEnv) (st : CloudState) (o : Oracle)
    (q : Query) (r : LogResponse) (status : Nat) :
    (st.enabled = false ∨ keyFalsy st.osmosisApiKey = true →
      sendToOsmosis env st o q r status = ⟨"", [], o⟩) ∧
    (st.enabled = true → keyFalsy st.osmosisApiKey = false → st.inited = false →
      sendToOsmosis env st o q r status =
        ⟨"", [.consoleWarn "[OSMOSIS-AI] Cloud logging not initialized. Call init(apiKey) first."],
          o⟩) := by
  constructor
  · rintro (h | h) <;> simp [sendToOsmosis, h]
  · intro h1 h2 h3
    simp [sendToOsmosis, h1, h2, h3]

/-- Witness for C5 at concrete inputs: a disabled module, and an enabled
uninitialized one. -/
theorem C5_witness :
    sendToOsmosis envOkFix ⟨false, some "key1", true, none⟩ orHalfFix qNoIdFix .empty 200 =
      ⟨"", [], orHalfFix⟩ ∧
    sendToOsmosis envOkFix ⟨true, some "key1", false, none⟩ orHalfFix qNoIdFix .empty 200 =
      ⟨"", [.consoleWarn "[OSMOSIS-AI] Cloud logging not initialized. Call init(apiKey) first."],
        orHalfFix⟩ :=
  ⟨(C5_send_guards envOkFix ⟨false, some "key1", true, none⟩ orHalfFix qNoIdFix .empty 200).1
      (Or.inl rfl),
   (C5_send_guards envOkFix ⟨true, some "key1", false, none⟩ orHalfFix qNoIdFix .empty 200).2
      rfl rfl rfl⟩

/-- Modelled from the spec's words for claim C6: the id has the exact form
`req_<epochMillis>_<suffix>` where the suffix is exactly five
lowercase-alphanumeric characters. -/
def specFiveCharIdForm (nowMs : Nat) (id : String) : Bool :=
  let pre := "req_" ++ Nat.repr nowMs ++ "_"
  (decide (id.data.take pre.data.length = pre.data)) &&
    (decide ((id.data.drop pre.data.length).length = 5)) &&
    (id.data.drop pre.data.length).all isLowerAlnum

/-- Counterexample to claim C6 as stated: with the module active and the
`Math.random()` draw `0.5` (base-36 `"0.i"`), the generated id is
`req_1234_i`, whose suffix has one character, not five. -/
theorem C6_counterexample :
    (sendToOsmosis envOkFix cstActiveFix orHalfFix qNoIdFix .empty 200).id = "req_1234_i" ∧
    specFiveCharIdForm 1234 "req_1234_i" = false := by
  constructor
  · decide
  · decide

/-- Claim C6 (amended): with the module enabled, configured and initialized and
no caller-supplied id, the returned id (also placed in the envelope) has the
form `req_<epochMillis>_<suffix>` where the suffix is the first at most five
base-36 fractional digits of the random draw - lowercase-alphanumeric
characters, five except when the draw's base-36 expansion terminates earlier -
and the id always begins with `req_`. -/
theorem C6_generated_id_shape (env : SendEnv) (st : CloudState) (o : Oracle)
    (q : Query) (r : LogResponse) (status : Nat) (key : String)
    (h1 : st.enabled = true) (h2 : st.osmosisApiKey = some key)
    (h3 : key.isEmpty = false) (h4 : st.inited = true)
    (hq : q.requestId = none) (hr : o.rands.headD 0 < pow53) :
    (sendToOsmosis env st o q r status).id = reqId o.nowMs (o.rands.headD 0) ∧
    (randomSuffix (o.rands.headD 0)).length ≤ 5 ∧
    (randomSuffix (o.rands.headD 0)).data.all isLowerAlnum = true ∧
    ((sendToOsmosis env st o q r status).id).data.take 4 = "req_".data := by
  have hid : (sendToOsmosis env st o q r status).id = reqId o.nowMs (o.rands.headD 0) := by
    rw [sendToOsmosis_active_id env st o q r status key h1 h2 h3 h4,
      resolvedIdO_none o q hq]
  refine ⟨hid, randomSuffix_length_le _, randomSuffix_lowerAlnum _ hr, ?_⟩
  rw [hid, reqId_take4]

/-- Witness for the amended C6 at concrete inputs. -/
theorem C6_witness :
    (sendToOsmosis envOkFix cstActiveFix orHalfFix qNoIdFix .empty 200).id =
      reqId 1234 (2 ^ 52) ∧
    (randomSuffix (2 ^ 52)).length ≤ 5 ∧
    (randomSuffix (2 ^ 52)).data.all isLowerAlnum = true ∧
    ((sendToOsmosis envOkFix cstActiveFix orHalfFix qNoIdFix .empty 200).id).data.take 4 =
      "req_".data :=
  C6_generated_id_shape envOkFix cstActiveFix orHalfFix qNoIdFix .empty 200 "key1"
    rfl rfl rfl rfl rfl (by decide)

/-- Counterexample to claim C7 as stated: a caller-supplied correlation id that
is the empty string is not passed through - the id is regenerated, and the
function does not return the supplied string. -/
theorem C7_counterexample :
    (sendToOsmosis envOkFix cstActiveFix orHalfFix { qNoIdFix with requestId := some "" }
        .empty 200).id = "req_1234_i" ∧
    ("req_1234_i" : String) ≠ "" := by
  constructor
  · decide
  · decide

/-- Claim C7 (amended): a non-empty caller-supplied correlation id is passed
through unchanged - the function returns exactly that id and every envelope it
posts carries it in `query.requestId`; an empty-string id is treated as absent
and regenerated. -/
theorem C7_suppliedId_passthrough (env : SendEnv) (st : CloudState) (o : Oracle)
    (q : Query) (r : LogResponse) (status : Nat) (key s : String)
    (h1 : st.enabled = true) (h2 : st.osmosisApiKey = some key)
    (h3 : key.isEmpty = false) (h4 : st.inited = true)
    (hq : q.requestId = some s) (hs : s.isEmpty = false) :
    (sendToOsmosis env st o q r status).id = s ∧
    ∀ envl ∈ sentEnvelopes (sendToOsmosis env st o q r status).effects,
      envl.query.requestId = some s := by
  have hres := resolvedIdO_some o q s hq hs
  constructor
  · rw [sendToOsmosis_active_id env st o q r status key h1 h2 h3 h4, hres]
  · intro envl hmem
    rcases sentEnvelopes_sendToOsmosis env st o q r status with h | h
    · rw [h] at hmem
      exact absurd hmem (List.not_mem_nil _)
    · rw [h] at hmem
      rcases List.mem_singleton.mp hmem with rfl
      simp [builtEnvelope, hres]

/-- Witness for the amended C7 at concrete inputs. -/
theorem C7_witness :
    (sendToOsmosis envOkFix cstActiveFix orHalfFix { qNoIdFix with requestId := some "mine" }
        .empty 200).id = "mine" ∧
    ∀ envl ∈ sentEnvelopes (sendToOsmosis envOkFix cstActiveFix orHalfFix
        { qNoIdFix with requestId := some "mine" } .empty 200).effects,
      envl.query.requestId = some "mine" :=
  C7_suppliedId_passthrough envOkFix cstActiveFix orHalfFix
    { qNoIdFix with requestId := some "mine" } .empty 200 "key1" "mine"
    rfl rfl rfl rfl rfl rfl

/-- Claim C9: with the module enabled, configured and initialized,
`sendToOsmosis` always returns the resolved correlation id (it never raises):
a serialization failure yields exactly the prepare-failure warning and no POST,
a network-layer failure yields the one POST plus its failure warning, a non-200
response yields the one POST plus a warning referencing the returned status
code, and no execution issues more than one POST (no retry). -/
theorem C9_send_never_raises (env : SendEnv) (st : CloudState) (o : Oracle)
    (q : Query) (r : LogResponse) (status : Nat) (key : String)
    (h1 : st.enabled = true) (h2 : st.osmosisApiKey = some key)
    (h3 : key.isEmpty = false) (h4 : st.inited = true) :
    (sendToOsmosis env st o q r status).id = (resolvedIdO o q).1 ∧
    (∀ e, env.stringify (builtEnvelope env st o q r status) = .error e →
      (sendToOsmosis env st o q r status).effects =
        [.consoleWarn ("[OSMOSIS-AI] Failed to prepare data for Osmosis API: " ++ e)]) ∧
    (∀ s m, env.stringify (builtEnvelope env st o q r status) = .ok s →
      o.fetches.headD (.status 200) = .netError m →
      (sendToOsmosis env st o q r status).effects =
        [.fetchPost (OSMOSIS_API_URL ++ "/ingest") key (builtEnvelope env st o q r status)
            (stripNewlines s ++ "\n"),
         .consoleWarn ("[OSMOSIS-AI] Failed to send data to Osmosis API: " ++ m)]) ∧
    (∀ s n, env.stringify (builtEnvelope env st o q r status) = .ok s →
      o.fetches.headD (.status 200) = .status n → n ≠ 200 →
      (sendToOsmosis env st o q r status).effects =
        [.fetchPost (OSMOSIS_API_URL ++ "/ingest") key (builtEnvelope env st o q r status)
            (stripNewlines s ++ "\n"),
         .consoleWarn ("[OSMOSIS-AI] API returned status " ++ Nat.repr n ++ " for data")]) ∧
    ((sendToOsmosis env st o q r status).effects.filter Effect.isFetch).length ≤ 1 := by
  rw [sendToOsmosis_active env st o q r status key h1 h2 h3 h4]
  have hff : (resolvedIdO o q).2.fetches = o.fetches := resolvedIdO_fetches o q
  refine ⟨?_, ?_, ?_, ?_, ?_⟩
  · cases htry : trySend env (resolvedIdO o q).2 key (builtEnvelope env st o q r status) with
    | ok p => rfl
    | error e => rfl
  · intro e he
    simp [trySend, he]
  · intro s m hs hm
    simp only [trySend, hs]
    unfold fetchFollowUp
    rw [hff, hm]
  · intro s n hs hn hne
    simp only [trySend, hs]
    unfold fetchFollowUp
    rw [hff, hn]
    simp [hne]
  · cases hs : env.stringify (builtEnvelope env st o q r status) with
    | error e => simp [trySend, hs, Effect.isFetch]
    | ok s => simp [trySend, hs, Effect.isFetch, filter_isFetch_fetchFollowUp]

/-- Witness for C9 at a concrete input whose serializer throws. -/
theorem C9_witness :
    (sendToOsmosis envErrFix cstActiveFix orHalfFix qNoIdFix .empty 200).effects =
      [.consoleWarn ("[OSMOSIS-AI] Failed to prepare data for Osmosis API: " ++ "boom")] :=
  (C9_send_never_raises envErrFix cstActiveFix orHalfFix qNoIdFix .empty 200 "key1"
    rfl rfl rfl rfl).2.1 "boom" rfl

/-- Claim C10: `init` with an empty-string API key stores the empty key, warns,
and leaves the initialized flag unchanged; afterwards every `sendToOsmosis`
call returns the empty string with no effects (in particular no network I/O),
because the stored key is empty. -/
theorem C10_init_empty_key (st : CloudState) (xxh : String → String)
    (env : SendEnv) (o : Oracle) (q : Query) (r : LogResponse) (status : Nat) :
    (OsmosisCloud.init st xxh "").1.inited = st.inited ∧
    (OsmosisCloud.init st xxh "").2 =
      [.consoleWarn "[OSMOSIS-AI] No API key provided. Cloud logging disabled."] ∧
    (OsmosisCloud.init st xxh "").1.osmosisApiKey = some "" ∧
    sendToOsmosis env (OsmosisCloud.init st xxh "").1 o q r status = ⟨"", [], o⟩ := by
  have hemp : ("" : String).isEmpty = true := by decide
  have hinit : OsmosisCloud.init st xxh "" =
      ({ st with osmosisApiKey := some "" },
        [.consoleWarn "[OSMOSIS-AI] No API key provided. Cloud logging disabled."]) := by
    simp [OsmosisCloud.init, hemp]
  rw [hinit]
  refine ⟨rfl, rfl, rfl, ?_⟩
  simp [sendToOsmosis, keyFalsy, hemp]

lemma spreadAPIs_get (a b : EnabledAPIsPartial) (name : APIName) :
    (spreadAPIs a b).get name = (a.get name).spread (b.get name) := by
  cases name <;> rfl

lemma spread_absent {α : Type} (x : JsField α) : x.spread .absent = x := rfl

/-- A concrete stand-in for the resolved xxhash instance. -/
def xxhFix : String → String := fun _ => "ffffffff"

/-- Claim C8: `configure` performs a shallow merge - top-level keys present in
the partial overwrite, while a present `enabledAPIs` object is merged
key-by-key against the previous value, so per-library flags not mentioned in
the partial retain their prior value; in particular
`configure({enabledAPIs:{anthropic:false}})` after
`configure({enabledAPIs:{openai:true,anthropic:true}})` leaves `openai` enabled
and only `anthropic` disabled. -/
theorem C8_configure_merge (cfg : OsmosisConfig) (cst : CloudState)
    (xxh : String → String) (opts : OsmosisConfig) (name : APIName)
    (b : Bool) (d : LogDestination) (p : EnabledAPIsPartial) :
    (opts.enabled = .val b → (Index.configure cfg cst xxh opts).1.enabled = .val b) ∧
    (opts.logDestination = .val d →
      (Index.configure cfg cst xxh opts).1.logDestination = .val d) ∧
    (opts.enabledAPIs = .val p →
      (Index.configure cfg cst xxh opts).1.enabledAPIs =
        .val (spreadAPIs (apisOf cfg.enabledAPIs) p)) ∧
    (opts.enabledAPIs = .absent ∨ (opts.enabledAPIs = .val p ∧ p.get name = .absent) →
      (apisOf (Index.configure cfg cst xxh opts).1.enabledAPIs).get name =
        (apisOf cfg.enabledAPIs).get name) ∧
    ((Index.configure (Index.configure defaultConfig cstActiveFix xxhFix
        { enabledAPIs := .val { openai := .val true, anthropic := .val true } }).1
        cstActiveFix xxhFix { enabledAPIs := .val { anthropic := .val false } }).1.enabledAPIs =
      .val { openai := .val true, anthropic := .val false,
             langchainOpenai := .val true, langchainAnthropic := .val true }) := by
  refine ⟨?_, ?_, ?_, ?_, ?_⟩
  · intro h
    unfold Index.configure
    dsimp only
    split <;> simp [JsField.spread, h]
  · intro h
    unfold Index.configure
    dsimp only
    split <;> simp [JsField.spread, h]
  · intro h
    unfold Index.configure
    dsimp only
    simp [h, JsField.objTruthy, apisOf]
  · rintro (h | ⟨h, hname⟩)
    · unfold Index.configure
      dsimp only
      simp [h, JsField.objTruthy, spread_absent]
    · unfold Index.configure
      dsimp only
      simp [h, JsField.objTruthy, apisOf, spreadAPIs_get, hname, spread_absent]
  · decide

/-- Witness for C8 at concrete inputs: overwrite of `enabled`, and retention of
an unmentioned `openai` flag. -/
theorem C8_witness :
    (Index.configure defaultConfig cstActiveFix xxhFix
        { enabled := .val false,
          enabledAPIs := .val { anthropic := .val false } }).1.enabled = .val false ∧
    (apisOf (Index.configure defaultConfig cstActiveFix xxhFix
        { enabledAPIs := .val { anthropic := .val false } }).1.enabledAPIs).get .openai =
      (apisOf defaultConfig.enabledAPIs).get .openai :=
  ⟨(C8_configure_merge defaultConfig cstActiveFix xxhFix
      { enabled := .val false, enabledAPIs := .val { anthropic := .val false } }
      .openai false .cloud { anthropic := .val false }).1 rfl,
   (C8_configure_merge defaultConfig cstActiveFix xxhFix
      { enabledAPIs := .val { anthropic := .val false } }
      .openai false .cloud { anthropic := .val false }).2.2.2.1 (Or.inr ⟨rfl, rfl⟩)⟩

lemma errorEnvelopes_send500_ok (env : SendEnv) (st : CloudState) (o : Oracle)
    (q : Query) (r : LogResponse) (key : String) (sOk : Envelope → String)
    (henv : env.stringify = fun e => Except.ok (sOk e))
    (h1 : st.enabled = true) (h2 : st.osmosisApiKey = some key)
    (h3 : key.isEmpty = false) (h4 : st.inited = true) :
    errorEnvelopes (sendToOsmosis env st o q r 500).effects =
      [builtEnvelope env st o q r 500] := by
  rw [sendToOsmosis_active_ok env st o q r 500 key sOk henv h1 h2 h3 h4]
  simp [errorEnvelopes, sentEnvelopes_cons_fetchPost, sentEnvelopes_fetchFollowUp,
    builtEnvelope_status]

section Fixtures2

/-- A configuration with logging enabled and destination `cloud`. -/
def cfgCloudFix : OsmosisConfig := { enabled := .val true, logDestination := .val .cloud }

/-- A configuration with logging enabled and destination `both`. -/
def cfgBothFix : OsmosisConfig := { enabled := .val true, logDestination := .val .both }

/-- Concrete resolved request options. -/
def optsFix : Index.ReqOptions := { path := "/p", method := "GET" }

end Fixtures2

/-- Counterexample to claim C1 as stated: for the OpenAI v1 low-level `request`
family, with remote-sink logging active (destination `cloud`, module active)
and the wrapped original method failing, no envelope at all reaches the remote
sink - the combined `Promise.all` handler swallows the failure - although the
original error is still re-raised to the caller. -/
theorem C1_counterexample :
    (Index.openAIRequestWrapper cfgCloudFix cstActiveFix envOkFix orHalfFix
        (.ok optsFix) (.error "boom") "T").result = .error "boom" ∧
    sentEnvelopes (Index.openAIRequestWrapper cfgCloudFix cstActiveFix envOkFix orHalfFix
        (.ok optsFix) (.error "boom") "T").effects = [] := by
  constructor
  · rfl
  · decide

/-- Claim C1 (amended): with remote-sink logging active (`logDestination`
cloud or both) and the cloud module enabled, configured and initialized, a
failing wrapped call re-raises the original error unchanged on every family;
exactly one envelope containing the request together with the error message
and status 500 is sent for the OpenAI v2 `chat.completions.create` wrapper and
the two LangChain `_generate` wrappers, while the low-level `request` wrappers
(OpenAI v1 and Anthropic) send no error envelope at all. -/
theorem C1_error_envelopes (cfg : OsmosisConfig) (cst : CloudState) (env : SendEnv)
    (o : Oracle) (ts msg reqData : String) (params : CreateParams)
    (opts : Index.ReqOptions) (key : String) (sOk : Envelope → String)
    (hcb : destCloudOrBoth cfg = true)
    (henv : env.stringify = fun e => Except.ok (sOk e))
    (h1 : cst.enabled = true) (h2 : cst.osmosisApiKey = some key)
    (h3 : key.isEmpty = false) (h4 : cst.inited = true) :
    ((Index.openAIV2CreateWrapper cfg cst env o params (.error msg) ts).result = .error msg ∧
      (errorEnvelopes
          (Index.openAIV2CreateWrapper cfg cst env o params (.error msg) ts).effects).map
        (fun e => (e.response, e.query.body, e.status)) =
        [(.errorMsg msg ts, some params, 500)]) ∧
    ((Index.langchainOpenAIGenerateWrapper cfg cst env o reqData (.error msg) ts).result =
        .error msg ∧
      (errorEnvelopes
          (Index.langchainOpenAIGenerateWrapper cfg cst env o reqData (.error msg) ts).effects).map
        (fun e => (e.response, e.query.body, e.status)) =
        [(.errorMsg msg ts, some { payload := reqData }, 500)]) ∧
    ((Index.langchainAnthropicGenerateWrapper cfg cst env o reqData (.error msg) ts).result =
        .error msg ∧
      (errorEnvelopes
          (Index.langchainAnthropicGenerateWrapper cfg cst env o reqData
            (.error msg) ts).effects).map
        (fun e => (e.response, e.query.body, e.status)) =
        [(.errorMsg msg ts, some { payload := reqData }, 500)]) ∧
    ((Index.openAIRequestWrapper cfg cst env o (.ok opts) (.error msg) ts).result =
        .error msg ∧
      errorEnvelopes
        (Index.openAIRequestWrapper cfg cst env o (.ok opts) (.error msg) ts).effects = []) ∧
    ((Index.anthropicRequestWrapper cfg cst env o (.ok opts) (.error msg) ts).result =
        .error msg ∧
      errorEnvelopes
        (Index.anthropicRequestWrapper cfg cst env o (.ok opts) (.error msg) ts).effects
        = []) := by
  refine ⟨?_, ?_, ?_, ?_, ?_⟩
  · unfold Index.openAIV2CreateWrapper
    dsimp only
    simp only [hcb, if_true]
    refine ⟨by trivial, ?_⟩
    rw [errorEnvelopes_append]
    have hreq : errorEnvelopes
        (if destConsoleOrBoth cfg then
          Index.logRequest cfg cst env o "OpenAI v2" ts "/v1/chat/completions" "POST"
            (some params) none
        else ([], o)).1 = [] := by
      split
      · exact Index.errorEnvelopes_logRequest ..
      · rfl
    rw [hreq, errorEnvelopes_send500_ok env cst _ _ _ key sOk henv h1 h2 h3 h4]
    simp [builtEnvelope]
  · unfold Index.langchainOpenAIGenerateWrapper
    dsimp only
    simp only [hcb, if_true]
    refine ⟨by trivial, ?_⟩
    rw [errorEnvelopes_append]
    have hreq : errorEnvelopes
        (if destConsoleOrBoth cfg then
          Index.logRequest cfg cst env o "LangChain OpenAI" ts "/v1/chat/completions" "POST"
            (some { payload := reqData }) none
        else ([], o)).1 = [] := by
      split
      · exact Index.errorEnvelopes_logRequest ..
      · rfl
    rw [hreq, errorEnvelopes_send500_ok env cst _ _ _ key sOk henv h1 h2 h3 h4]
    simp [builtEnvelope]
  · unfold Index.langchainAnthropicGenerateWrapper
    dsimp only
    simp only [hcb, if_true]
    refine ⟨by trivial, ?_⟩
    rw [errorEnvelopes_append]
    have hreq : errorEnvelopes
        (if destConsoleOrBoth cfg then
          Index.logRequest cfg cst env o "LangChain Anthropic" ts "/v1/messages" "POST"
            (some { payload := reqData }) none
        else ([], o)).1 = [] := by
      split
      · exact Index.errorEnvelopes_logRequest ..
      · rfl
    rw [hreq, errorEnvelopes_send500_ok env cst _ _ _ key sOk henv h1 h2 h3 h4]
    simp [builtEnvelope]
  · unfold Index.openAIRequestWrapper
    dsimp only
    simp only [hcb, if_true]
    refine ⟨by trivial, ?_⟩
    rw [errorEnvelopes_append]
    have hreq : errorEnvelopes
        (if destConsoleOrBoth cfg then
          Index.logRequest cfg cst env o "OpenAI" ts opts.path opts.method opts.body
            opts.queryParams
        else ([], o)).1 = [] := by
      split
      · exact Index.errorEnvelopes_logRequest ..
      · rfl
    rw [hreq]
    rfl
  · unfold Index.anthropicRequestWrapper
    dsimp only
    simp only [hcb, if_true]
    refine ⟨by trivial, ?_⟩
    rw [errorEnvelopes_append]
    have hreq : errorEnvelopes
        (if cfg.logDestination = .val .console then
          Index.logRequest cfg cst env o "Anthropic" ts opts.path opts.method opts.body
            opts.queryParams
        else ([], o)).1 = [] := by
      split
      · exact Index.errorEnvelopes_logRequest ..
      · rfl
    rw [hreq]
    rfl

/-- Witness for the amended C1 at concrete inputs (destination `both`, module
active, total serializer). -/
theorem C1_witness :
    ((Index.openAIV2CreateWrapper cfgBothFix cstActiveFix envOkFix orHalfFix
        ⟨"P", false⟩ (.error "boom") "T").result = .error "boom" ∧
      (errorEnvelopes (Index.openAIV2CreateWrapper cfgBothFix cstActiveFix envOkFix orHalfFix
          ⟨"P", false⟩ (.error "boom") "T").effects).map
        (fun e => (e.response, e.query.body, e.status)) =
        [(.errorMsg "boom" "T", some ⟨"P", false⟩, 500)]) ∧
    ((Index.langchainOpenAIGenerateWrapper cfgBothFix cstActiveFix envOkFix orHalfFix
        "R" (.error "boom") "T").result = .error "boom" ∧
      (errorEnvelopes (Index.langchainOpenAIGenerateWrapper cfgBothFix cstActiveFix envOkFix
          orHalfFix "R" (.error "boom") "T").effects).map
        (fun e => (e.response, e.query.body, e.status)) =
        [(.errorMsg "boom" "T", some { payload := "R" }, 500)]) ∧
    ((Index.langchainAnthropicGenerateWrapper cfgBothFix cstActiveFix envOkFix orHalfFix
        "R" (.error "boom") "T").result = .error "boom" ∧
      (errorEnvelopes (Index.langchainAnthropicGenerateWrapper cfgBothFix cstActiveFix envOkFix
          orHalfFix "R" (.error "boom") "T").effects).map
        (fun e => (e.response, e.query.body, e.status)) =
        [(.errorMsg "boom" "T", some { payload := "R" }, 500)]) ∧
    ((Index.openAIRequestWrapper cfgBothFix cstActiveFix envOkFix orHalfFix
        (.ok optsFix) (.error "boom") "T").result = .error "boom" ∧
      errorEnvelopes (Index.openAIRequestWrapper cfgBothFix cstActiveFix envOkFix orHalfFix
        (.ok optsFix) (.error "boom") "T").effects = []) ∧
    ((Index.anthropicRequestWrapper cfgBothFix cstActiveFix envOkFix orHalfFix
        (.ok optsFix) (.error "boom") "T").result = .error "boom" ∧
      errorEnvelopes (Index.anthropicRequestWrapper cfgBothFix cstActiveFix envOkFix orHalfFix
        (.ok optsFix) (.error "boom") "T").effects = []) :=
  C1_error_envelopes cfgBothFix cstActiveFix envOkFix orHalfFix "T" "boom" "R"
    ⟨"P", false⟩ optsFix "key1" (fun _ => "S") rfl rfl rfl rfl rfl rfl

/-- Claim C2 is right and the code is wrong (code bug): with
`Configuration.enabled = false` the response-phase cloud send of the patched
OpenAI `request` still posts an envelope to the remote sink, because it is
gated only on `logDestination` and never consults `osmosisConfig.enabled`
(the README documents `enabled` as "Enable/disable all monitoring").
Evaluation at the failing input - `enabled: false`, destination `cloud`,
cloud module active, successful call - shows one remote envelope emitted. -/
theorem C2_code_bug_eval :
    (sentEnvelopes (Index.openAIRequestWrapper
        { enabled := .val false, logDestination := .val .cloud } cstActiveFix envOkFix
        orHalfFix (.ok optsFix) (.ok "resp") "T").effects).length = 1 := by
  decide

/-- Claim C3 is right and the code is wrong for the Anthropic family (code
bug): the patched Anthropic `request` emits its console record only when
`logDestination === "console"`, so at destination `both` - where console
logging is active - it emits no console output at all, while the OpenAI
wrapper does (the README documents `both` as console plus cloud). -/
theorem C3_code_bug_eval :
    (Index.anthropicRequestWrapper cfgBothFix cstActiveFix envOkFix orHalfFix
        (.ok optsFix) (.ok "resp") "T").effects.filter Effect.isConsole = [] ∧
    (Index.openAIRequestWrapper cfgBothFix cstActiveFix envOkFix orHalfFix
        (.ok optsFix) (.ok "resp") "T").effects.filter Effect.isConsole ≠ [] := by
  constructor
  · decide
  · decide

/-- Counterexample to claim C4 as stated: at destination `both` - where cloud
logging is active - the streaming wrapper produces three remote envelopes for
the two-chunk stream `["Hello", " world"]`, because `logRequest` posts an
additional request-phase envelope before the start/completion pair. -/
theorem C4_counterexample :
    (sentEnvelopes (Index.streamWrapper cfgBothFix cstActiveFix envOkFix orHalfFix
        ⟨"P", false⟩ [some "Hello", some " world"] "T").effects).length = 3 := by
  decide

/-- Claim C4 (amended): for a streaming call with the cloud module enabled,
configured and initialized and logging enabled, when `logDestination` is
`cloud` exactly two remote envelopes are produced - a start envelope and a
completion envelope whose accumulated content is the concatenation of the
chunk deltas - both carrying the same generated correlation id, and the
completion envelope is skipped when the stream produced no content; when
`logDestination` is `both`, one additional request-phase envelope precedes the
same start/completion pair. The chunks are yielded downstream unchanged. -/
theorem C4_stream_envelopes (cfg : OsmosisConfig) (cst : CloudState) (env : SendEnv)
    (now r0 r1 : Nat) (rs : List Nat) (fs : List FetchOutcome)
    (params : CreateParams) (chunks : List (Option String)) (ts key : String)
    (sOk : Envelope → String)
    (henv : env.stringify = fun e => Except.ok (sOk e))
    (h1 : cst.enabled = true) (h2 : cst.osmosisApiKey = some key)
    (h3 : key.isEmpty = false) (h4 : cst.inited = true)
    (hen : cfg.enabled = .val true) :
    (cfg.logDestination = .val .cloud → 0 < (Index.concatDeltas chunks).length →
      (sentEnvelopes (Index.streamWrapper cfg cst env ⟨now, r0 :: r1 :: rs, fs⟩ params
          chunks ts).effects).map (fun e => (e.query.requestId, e.response, e.status)) =
        [(some (reqId now r0), .streamStarted ts, 200),
         (some (reqId now r0),
          .streamCompleted (Index.concatDeltas chunks) (Index.concatDeltas chunks).length
            ts ts ts, 200)]) ∧
    (cfg.logDestination = .val .cloud → Index.concatDeltas chunks = "" →
      (sentEnvelopes (Index.streamWrapper cfg cst env ⟨now, r0 :: r1 :: rs, fs⟩ params
          chunks ts).effects).map (fun e => (e.query.requestId, e.response, e.status)) =
        [(some (reqId now r0), .streamStarted ts, 200)]) ∧
    (cfg.logDestination = .val .both → 0 < (Index.concatDeltas chunks).length →
      (sentEnvelopes (Index.streamWrapper cfg cst env ⟨now, r0 :: r1 :: rs, fs⟩ params
          chunks ts).effects).map (fun e => (e.query.requestId, e.response, e.status)) =
        [(some (reqId now r0), .empty, 200),
         (some (reqId now r1), .streamStarted ts, 200),
         (some (reqId now r1),
          .streamCompleted (Index.concatDeltas chunks) (Index.concatDeltas chunks).length
            ts ts ts, 200)]) ∧
    ((Index.streamWrapper cfg cst env ⟨now, r0 :: r1 :: rs, fs⟩ params chunks ts).result =
      chunks) := by
  have hsend : ∀ (o' : Oracle) (q : Query) (r : LogResponse),
      sendToOsmosis env cst o' q r 200 = ⟨(resolvedIdO o' q).1,
        Effect.fetchPost (OSMOSIS_API_URL ++ "/ingest") key (builtEnvelope env cst o' q r 200)
            (stripNewlines (sOk (builtEnvelope env cst o' q r 200)) ++ "\n")
          :: fetchFollowUp (resolvedIdO o' q).2,
        (resolvedIdO o' q).2.consumeFetch⟩ :=
    fun o' q r => sendToOsmosis_active_ok env cst o' q r 200 key sOk henv h1 h2 h3 h4
  refine ⟨?_, ?_, ?_, ?_⟩
  · intro hd hcl
    have hdc : destConsoleOrBoth cfg = false := by simp [destConsoleOrBoth, hd]
    have hdb : destCloudOrBoth cfg = true := by simp [destCloudOrBoth, hd]
    unfold Index.streamWrapper
    simp only [hdc, hdb, if_true, if_false, Bool.false_eq_true, reduceIte]
    simp only [hsend]
    simp [resolvedIdO, reqId_isEmpty, Oracle.consumeRand, Oracle.consumeFetch, hcl,
      sentEnvelopes_append, sentEnvelopes_cons_fetchPost, sentEnvelopes_cons_log,
      sentEnvelopes_fetchFollowUp, builtEnvelope,
      show sentEnvelopes [] = [] from rfl]
  · intro hd hc0
    have hdc : destConsoleOrBoth cfg = false := by simp [destConsoleOrBoth, hd]
    have hdb : destCloudOrBoth cfg = true := by simp [destCloudOrBoth, hd]
    unfold Index.streamWrapper
    simp only [hdc, hdb, if_true, if_false, Bool.false_eq_true, reduceIte]
    simp only [hsend]
    simp [resolvedIdO, reqId_isEmpty, Oracle.consumeRand, Oracle.consumeFetch, hc0,
      sentEnvelopes_append, sentEnvelopes_cons_fetchPost, sentEnvelopes_cons_log,
      sentEnvelopes_fetchFollowUp, builtEnvelope,
      show sentEnvelopes [] = [] from rfl]
  · intro hd hcl
    have hdc : destConsoleOrBoth cfg = true := by simp [destConsoleOrBoth, hd]
    have hdb : destCloudOrBoth cfg = true := by simp [destCloudOrBoth, hd]
    unfold Index.streamWrapper Index.logRequest
    simp only [hdc, hdb, hen, if_true, JsField.boolTruthy, Bool.not_true,
      Bool.false_eq_true, reduceIte, isCloudLoggingEnabled, h1, h4, Bool.and_self]
    simp only [hsend]
    simp [resolvedIdO, reqId_isEmpty, Oracle.consumeRand, Oracle.consumeFetch, hcl,
      sentEnvelopes_append, sentEnvelopes_cons_fetchPost, sentEnvelopes_cons_log,
      sentEnvelopes_fetchFollowUp, builtEnvelope, Index.sentEnvelopes_consoleRequestLines,
      show sentEnvelopes [] = [] from rfl]
  · unfold Index.streamWrapper
    dsimp only
    split <;> rfl

/-- Witness for the amended C4: two chunks `"Hello"` and `" world"` at
destination `cloud` with the module active. -/
theorem C4_witness :
    (sentEnvelopes (Index.streamWrapper cfgCloudFix cstActiveFix envOkFix
        ⟨1234, 5 :: 7 :: [], []⟩ ⟨"P", false⟩ [some "Hello", some " world"] "T").effects).map
      (fun e => (e.query.requestId, e.response, e.status)) =
      [(some (reqId 1234 5), .streamStarted "T", 200),
       (some (reqId 1234 5),
        .streamCompleted (Index.concatDeltas [some "Hello", some " world"])
          (Index.concatDeltas [some "Hello", some " world"]).length "T" "T" "T", 200)] :=
  (C4_stream_envelopes cfgCloudFix cstActiveFix envOkFix 1234 5 7 [] []
      ⟨"P", false⟩ [some "Hello", some " world"] "T" "key1" (fun _ => "S")
      rfl rfl rfl rfl rfl rfl).1 rfl (by decide)
